import Mathlib

/-!
Verification of the scan-session lifecycle controller of the QDirStat
main window (`src/MainWindow.cpp`).

The controller is embedded shallowly: the mutable members of `MainWindow`
(and the small slices of the external `DirTree` / `SelectionModel` state it
reads and writes) become the fields of an explicit state record, and each
slot of the C++ class becomes a function from that state to a new state
paired with a list of observable effects (calls into the external
collaborators: tree view, selection model, scanning engine, status bar).

A few leaf classes of the repository (`Subtree` alias FutureSelection,
`FileInfoSet` predicates, `PkgFilter::isPkgUrl`) are used by
`MainWindow.cpp` but their sources are not part of this repository
snapshot; those are modelled from the spec and marked as such.
-/

namespace QDirStat

/-- A node of the directory tree as far as the controller inspects it:
stable path identity plus the boolean attributes queried by
`MainWindow::updateActions` and friends. -/
structure FileInfo where
  url : String
  isDir : Bool
  isPkgInfo : Bool
  isPseudoDir : Bool
  isExcluded : Bool
  isMountPoint : Bool
  treeLevel : Nat
  errSubDirCount : Nat
  deriving DecidableEq, Repr

/-- The freshly built directory tree, abstracted to the list of its nodes
in document order (first element = first toplevel item). -/
abbrev DirTreeData := List FileInfo

/-- `DirTree::firstToplevel()`: the first toplevel item, if any. -/
def firstToplevel (t : DirTreeData) : Option FileInfo :=
  t.head?

/-- `DirTree::locate(url)`: look an item up by stable path identity. -/
def locate (t : DirTreeData) (url : String) : Option FileInfo :=
  t.find? (fun f => f.url == url)

/-- Modelled from the spec: `PkgFilter::isPkgUrl` (class not in this
snapshot) recognizes a package-filter URL by its scheme marker at the
start of the URL. -/
def isPkgUrl (url : String) : Bool :=
  List.isPrefixOf ("Pkg:").data url.data

/-- `MainWindow::isUnpkgUrl` (source lines 959-962): the URL starts with
the unpackaged-files scheme marker. -/
def isUnpkgUrl (url : String) : Bool :=
  List.isPrefixOf ("unpkg:/").data url.data

/-- The mutable state of the controller: the `MainWindow` members touched
by the session lifecycle, plus the slices of external collaborator state
(`DirTree::isBusy`/`url`, the selection model's current branch / current
item / selected items, history of the `HistoryButtons`) that the
controller reads and writes. -/
structure MWState where
  /-- `Subtree _futureSelection`: the recorded target path, `none` when
  the stored URL is empty (no pending selection request). -/
  futureSel : Option String
  /-- `Subtree::useRootFallback` flag of `_futureSelection`. -/
  useRootFallback : Bool
  /-- whether the one-shot `_treeExpandTimer` (settle-timer) is pending. -/
  treeExpandTimerPending : Bool
  /-- whether the periodic `_updateTimer` (status ticker) is running. -/
  updateTimerRunning : Bool
  /-- `_enableDirPermissionsWarning` arming flag. -/
  enableDirPermissionsWarning : Bool
  /-- `_dirPermissionsWarning` panel pointer is non-null. -/
  dirPermissionsWarningShown : Bool
  /-- `_unreadableDirsWindow` pointer is non-null. -/
  unreadableDirsWindowOpen : Bool
  /-- browsing history held by `_historyButtons`. -/
  history : List String
  /-- `DirTree::isBusy()`: a scan is in flight. -/
  busy : Bool
  /-- `DirTree::url()`: URL of the currently loaded root. -/
  treeUrl : String
  /-- `SelectionModel::currentBranch()`, identified by path. -/
  currentBranch : Option String
  /-- `SelectionModel::currentItem()`. -/
  currentItem : Option FileInfo
  /-- `SelectionModel::selectedItems()`. -/
  selectedItems : List FileInfo
  /-- `_ui->fileDetailsView->isVisible()`. -/
  detailsVisible : Bool
  deriving DecidableEq, Repr

/-- Observable effects: calls the controller makes into its external
collaborators, recorded in program order. -/
inductive Effect where
  /-- a call to `MainWindow::updateActions()` (command enablement refresh). -/
  | updateActions
  /-- `dirTreeView->sortByColumn(col, order)`; `true` = ascending. -/
  | sortByColumn (col : String) (ascending : Bool)
  /-- `treemapView->disable()`. -/
  | disableTreemap
  /-- a call to `MainWindow::showTreemapView()`. -/
  | showTreemapView
  /-- `_unreadableDirsWindow->close()`. -/
  | closeUnreadableDirsWindow
  /-- a call to `MainWindow::expandTreeToLevel(level)`. -/
  | expandTreeToLevel (level : Nat)
  /-- `SelectionModel::setCurrentBranch(item)`, item named by path. -/
  | setCurrentBranch (url : String)
  /-- `dirTreeView->setExpanded(item, true)`. -/
  | setExpanded (url : String)
  /-- `fileDetailsView->showDetails` with a single (possibly null) item. -/
  | showDetailsOfItem (fi : Option FileInfo)
  /-- `fileDetailsView->showDetails` with a multi-selection set. -/
  | showDetailsOfSet (fis : List FileInfo)
  /-- `DirTree::abortReading()`. -/
  | abortReading
  /-- a status-bar message. -/
  | statusMessage
  /-- adding the directory-permissions `PanelMessage` to the panel. -/
  | showPermissionsPanel
  /-- `DirTreeModel::openUrl(url)`. -/
  | modelOpenUrl (url : String)
  /-- `DirTreeModel::readPkg(url)`. -/
  | modelReadPkg (url : String)
  /-- `DirTreeModel::refreshSelected()`. -/
  | modelRefreshSelected
  /-- `MainWindow::updateWindowTitle(title)`. -/
  | updateWindowTitle (title : String)
  /-- `DirTree::sendFinished()` (failed open). -/
  | sendFinished
  /-- modal error popup for a failed open. -/
  | errorPopup
  /-- re-invoking the open-directory dialog. -/
  | askOpenDirDialog
  /-- `DirTree::reset()`. -/
  | resetTree
  /-- `DirTreeModel::clear()`. -/
  | clearModel
  /-- `DirTree::readCache(fileName)`. -/
  | readCacheFile (name : String)
  deriving DecidableEq, Repr

/-- Modelled from the spec: `FutureSelection.isEmpty()` — the `Subtree`
class is not in this snapshot; per the spec an empty target path means no
pending selection request. -/
def futureSelIsEmpty (s : MWState) : Bool :=
  s.futureSel.isNone

/-- Modelled from the spec: `FutureSelection.resolve` / `Subtree::subtree()`
(class not in this snapshot).  The recorded target is located in the given
(possibly rebuilt) tree by stable path identity; if it cannot be located
and `useRootFallback` is set, the scan root is substituted, otherwise the
resolution yields no item. -/
def futureSelResolve (target : Option String) (fallbackToRoot : Bool)
    (t : DirTreeData) : Option FileInfo :=
  match target with
  | none => if fallbackToRoot then firstToplevel t else none
  | some url =>
    match locate t url with
    | some fi => some fi
    | none => if fallbackToRoot then firstToplevel t else none

/-- `MainWindow::applyFutureSelection()` (source lines 998-1012): resolve
the recorded target against the tree; only if an item was found, stop the
settle-timer, clear the future selection, make the item the current
branch, and expand it when it is a mount point. -/
def applyFutureSelection (s : MWState) (t : DirTreeData) :
    MWState × List Effect :=
  match futureSelResolve s.futureSel s.useRootFallback t with
  | some fi =>
    ({ s with treeExpandTimerPending := false
            , futureSel := none
            , currentBranch := some fi.url },
     Effect.setCurrentBranch fi.url ::
       (if fi.isMountPoint then [Effect.setExpanded fi.url] else []))
  | none => (s, [])

/-- `MainWindow::updateFileDetailsView()` (source lines 717-733). -/
def updateFileDetailsView (s : MWState) : List Effect :=
  if s.detailsVisible then
    if s.selectedItems.isEmpty then
      [Effect.showDetailsOfItem s.currentItem]
    else if s.selectedItems.length == 1 then
      [Effect.showDetailsOfItem s.selectedItems.head?]
    else
      [Effect.showDetailsOfSet s.selectedItems]
  else
    []

/-- The three-way conditional at the heart of `MainWindow::idleDisplay()`
(source lines 701-710): consume a pending future selection (stopping the
settle-timer first), else — with no current branch — expand the tree to
level 1, else leave everything untouched. -/
def idleDisplayBranch (s : MWState) (t : DirTreeData) : MWState × List Effect :=
  if !futureSelIsEmpty s then
    applyFutureSelection { s with treeExpandTimerPending := false } t
  else if s.currentBranch.isNone then
    (s, [Effect.expandTreeToLevel 1])
  else
    (s, [])

/-- `MainWindow::idleDisplay()` (source lines 692-714): refresh the
command enablement, stop the status ticker, re-sort by percent; then run
the three-way branch of `idleDisplayBranch`; finally update the details
view and the treemap. -/
def idleDisplay (s : MWState) (t : DirTreeData) : MWState × List Effect :=
  let r := idleDisplayBranch { s with updateTimerRunning := false } t
  (r.1,
   Effect.updateActions :: Effect.sortByColumn ("PercentNum") false ::
     (r.2 ++ updateFileDetailsView r.1 ++ [Effect.showTreemapView]))

/-- `MainWindow::showDirPermissionsWarning()` (source lines 1555-1572):
bail out while a panel already exists or the arming flag is down; else
show the panel and clear the arming flag. -/
def showDirPermissionsWarning (s : MWState) : MWState × List Effect :=
  if s.dirPermissionsWarningShown || !s.enableDirPermissionsWarning then
    (s, [])
  else
    ({ s with dirPermissionsWarningShown := true
            , enableDirPermissionsWarning := false },
     [Effect.showPermissionsPanel])

/-- `DirTree::firstToplevel()` reports unreadable subdirectories (the
condition guarding the permissions warning, source lines 753-754). -/
def rootHasReadErrors (t : DirTreeData) : Bool :=
  match firstToplevel t with
  | some root => decide (root.errSubDirCount > 0)
  | none => false

/-- `MainWindow::readingFinished()` (source lines 743-760): the scan
engine is no longer busy; run `idleDisplay`, show the elapsed-time status
message, and — when the completed root reports unreadable subdirectories —
attempt the permissions warning. -/
def readingFinished (s : MWState) (t : DirTreeData) : MWState × List Effect :=
  let r := idleDisplay { s with busy := false } t
  if rootHasReadErrors t then
    ((showDirPermissionsWarning r.1).1,
     r.2 ++ [Effect.statusMessage] ++ (showDirPermissionsWarning r.1).2)
  else
    (r.1, r.2 ++ [Effect.statusMessage])

/-- `MainWindow::readingAborted()` (source lines 763-771): identical state
bookkeeping to `readingFinished`, but only an "aborted" status message and
never the permissions warning. -/
def readingAborted (s : MWState) (t : DirTreeData) : MWState × List Effect :=
  let r := idleDisplay { s with busy := false } t
  (r.1, r.2 ++ [Effect.statusMessage])

/-- `MainWindow::busyDisplay()` (source lines 655-689): disable the
treemap, refresh command enablement, close an open unreadable-dirs window,
start the status ticker, sort by name; arm the one-shot settle-timer
unless the loaded root is a package-filter URL or a current branch is
already set. -/
def busyDisplay (s : MWState) : MWState × List Effect :=
  let es : List Effect :=
    Effect.disableTreemap :: Effect.updateActions ::
      ((if s.unreadableDirsWindowOpen then
          [Effect.closeUnreadableDirsWindow]
        else
          []) ++ [Effect.sortByColumn ("Name") true])
  let s2 : MWState :=
    { s with unreadableDirsWindowOpen := false, updateTimerRunning := true }
  if !isPkgUrl s2.treeUrl && s2.currentBranch.isNone then
    ({ s2 with treeExpandTimerPending := true }, es)
  else
    (s2, es)

/-- `MainWindow::startingReading()` (source lines 736-740): the engine has
begun a scan (session becomes busy) and the busy display is applied. -/
def startingReading (s : MWState) : MWState × List Effect :=
  busyDisplay { s with busy := true }

/-- Firing of the one-shot `_treeExpandTimer`: its timeout is connected to
`actionExpandTreeLevel1` (source lines 235-236), which triggers
`expandTreeToLevel(1)` (source lines 350-351). -/
def treeExpandTimerFired (s : MWState) : MWState × List Effect :=
  ({ s with treeExpandTimerPending := false }, [Effect.expandTreeToLevel 1])

/-- `MainWindow::stopReading()` (source lines 1015-1022): only while the
engine is busy, ask it to abort and show a status message. -/
def stopReading (s : MWState) : MWState × List Effect :=
  if s.busy then
    (s, [Effect.abortReading, Effect.statusMessage])
  else
    (s, [])

/-- `MainWindow::openDir()` (source lines 788-813).  The `ok` parameter
stands for whether `DirTreeModel::openUrl` throws: on success the tree URL
changes; on failure the window title is reset, `sendFinished` is emitted
and the open dialog is re-invited.  Either way, command enablement is
refreshed and the tree is expanded to level 1. -/
def openDir (s : MWState) (url : String) (ok : Bool) : MWState × List Effect :=
  if ok then
    ({ s with treeUrl := url },
     [Effect.modelOpenUrl url, Effect.updateWindowTitle url,
      Effect.updateActions, Effect.expandTreeToLevel 1])
  else
    (s, [Effect.updateWindowTitle (""), Effect.sendFinished,
         Effect.errorPopup, Effect.askOpenDirDialog,
         Effect.updateActions, Effect.expandTreeToLevel 1])

/-- `MainWindow::readPkg()` (source lines 851-858): update the window
title, collapse the tree, start the package read. -/
def readPkg (s : MWState) (url : String) : MWState × List Effect :=
  ({ s with treeUrl := url },
   [Effect.updateWindowTitle url, Effect.expandTreeToLevel 0,
    Effect.modelReadPkg url])

/-- `MainWindow::showUnpkgFiles()` (source lines 887-956), reduced to the
effects relevant here: the model is cleared, filters are installed on the
external tree, and the starting directory is opened (`ok` again stands for
a non-throwing `DirTreeModel::openUrl`). -/
def showUnpkgFiles (s : MWState) (url : String) (ok : Bool) :
    MWState × List Effect :=
  if ok then
    ({ s with treeUrl := url },
     [Effect.clearModel, Effect.modelOpenUrl url,
      Effect.updateWindowTitle url, Effect.updateActions])
  else
    (s, [Effect.clearModel, Effect.updateWindowTitle (""),
         Effect.sendFinished, Effect.errorPopup, Effect.updateActions])

/-- `MainWindow::openUrl()` (source lines 774-785): arm the permissions
warning, clear the browsing history, then dispatch on the URL scheme. -/
def openUrl (s : MWState) (url : String) (ok : Bool) : MWState × List Effect :=
  let s1 : MWState :=
    { s with enableDirPermissionsWarning := true, history := [] }
  if isPkgUrl url then
    readPkg s1 url
  else if isUnpkgUrl url then
    showUnpkgFiles s1 url ok
  else
    openDir s1 url ok

/-- `MainWindow::refreshAll()` (source lines 965-985): arm the permissions
warning; re-read the currently loaded root in place (package or
directory), or fall back to the open dialog when none is loaded. -/
def refreshAll (s : MWState) : MWState × List Effect :=
  let s1 : MWState := { s with enableDirPermissionsWarning := true }
  if s1.treeUrl.isEmpty then
    (s1, [Effect.askOpenDirDialog])
  else if isPkgUrl s1.treeUrl then
    (s1, [Effect.modelReadPkg s1.treeUrl, Effect.updateActions])
  else
    (s1, [Effect.modelOpenUrl s1.treeUrl, Effect.updateActions])

/-- `MainWindow::refreshSelected()` (source lines 988-995): switch to the
busy display, record the first selected item as the future selection
(`Subtree::set`, empty when nothing is selected), start the selective
re-read, refresh command enablement. -/
def refreshSelected (s : MWState) : MWState × List Effect :=
  let r := busyDisplay s
  ({ r.1 with futureSel := r.1.selectedItems.head?.map (fun f => f.url) },
   r.2 ++ [Effect.modelRefreshSelected, Effect.updateActions])

/-- `MainWindow::askOpenPkg()` (source lines 838-848): unless the package
dialog was canceled, reset the tree and start the package read.  Note
that, unlike `openUrl`, this path clears neither the history nor any
other controller state. -/
def askOpenPkg (s : MWState) (canceled : Bool) (pkgUrl : String) :
    MWState × List Effect :=
  if canceled then
    (s, [])
  else
    ((readPkg s pkgUrl).1, Effect.resetTree :: (readPkg s pkgUrl).2)

/-- `MainWindow::readCache()` (source lines 1025-1032): clear the model
and the browsing history, then read the cache file if a name was given. -/
def readCache (s : MWState) (cacheFileName : String) : MWState × List Effect :=
  let s1 : MWState := { s with history := [] }
  if cacheFileName.isEmpty then
    (s1, [Effect.clearModel])
  else
    (s1, [Effect.clearModel, Effect.readCacheFile cacheFileName])

/-! ## Action enablement (`MainWindow::updateActions`, source lines 463-507)

The enablement computation is a pure function of what the controller
reads: the busy flag of the engine, the current item, the first toplevel
item and the multi-selection.  (The treemap-related actions additionally
depend on treemap widget state and are outside the claims; they are
omitted from the record.) -/

/-- The enabled/disabled verdicts `updateActions` assigns. -/
structure ActionEnablement where
  stopReading : Bool
  refreshAll : Bool
  askReadCache : Bool
  askWriteCache : Bool
  copyPathToClipboard : Bool
  goUp : Bool
  goToToplevel : Bool
  moveToTrash : Bool
  refreshSelected : Bool
  continueReadingAtMountPoint : Bool
  readExcludedDirectory : Bool
  fileSizeStats : Bool
  fileTypeStats : Bool
  fileAgeStats : Bool
  deriving DecidableEq, Repr

/-- An attribute of the (possibly null) first selected item; a null
pointer yields `false` (the C++ code only dereferences behind a
short-circuit guaranteeing non-null). -/
def firstAttr (sel : Option FileInfo) (p : FileInfo → Bool) : Bool :=
  match sel with
  | some f => p f
  | none => false

/-- Modelled from the spec: `FileInfoSet::containsPseudoDir` (class not in
this snapshot) — some selected item is a synthetic pseudo directory. -/
def containsPseudoDir (items : List FileInfo) : Bool :=
  items.any (fun f => f.isPseudoDir)

/-- Modelled from the spec: `FileInfoSet::containsPkg` (class not in this
snapshot) — some selected item is a package entry. -/
def containsPkg (items : List FileInfo) : Bool :=
  items.any (fun f => f.isPkgInfo)

/-- `MainWindow::updateActions()` (source lines 463-507) as the pure
enablement computation it performs. -/
def updateActions (reading : Bool) (currentItem : Option FileInfo)
    (firstToplevelItem : Option FileInfo) (selectedItems : List FileInfo) :
    ActionEnablement :=
  let pkgView := firstAttr firstToplevelItem (fun f => f.isPkgInfo)
  let sel := selectedItems.head?
  let selSize := selectedItems.length
  let oneDirSelected :=
    selSize == 1 && firstAttr sel (fun f => f.isDir && !f.isPkgInfo)
  let pseudoDirSelected := containsPseudoDir selectedItems
  let pkgSelected := containsPkg selectedItems
  { stopReading := reading
  , refreshAll := !reading
  , askReadCache := !reading
  , askWriteCache := !reading
  , copyPathToClipboard := currentItem.isSome
  , goUp := firstAttr currentItem (fun c => decide (c.treeLevel > 1))
  , goToToplevel := firstToplevelItem.isSome &&
      (currentItem.isNone || firstAttr currentItem (fun c => decide (c.treeLevel > 1)))
  , moveToTrash := sel.isSome && !pseudoDirSelected && !pkgSelected && !reading
  , refreshSelected := selSize == 1 &&
      !firstAttr sel (fun f => f.isExcluded) &&
      !firstAttr sel (fun f => f.isMountPoint) && !pkgView
  , continueReadingAtMountPoint :=
      oneDirSelected && firstAttr sel (fun f => f.isMountPoint)
  , readExcludedDirectory :=
      oneDirSelected && firstAttr sel (fun f => f.isExcluded)
  , fileSizeStats := !reading && (selectedItems.isEmpty || oneDirSelected)
  , fileTypeStats := !reading && (selectedItems.isEmpty || oneDirSelected)
  , fileAgeStats := !reading && (selectedItems.isEmpty || oneDirSelected) }

/-- The controller state right after the `MainWindow` constructor (source
lines 71-159): no pending future selection, `useRootFallback` explicitly
disabled (line 93), timers idle, permissions warning disarmed (line 75),
no history, engine idle, nothing loaded or selected. -/
def initialMWState : MWState :=
  { futureSel := none
  , useRootFallback := false
  , treeExpandTimerPending := false
  , updateTimerRunning := false
  , enableDirPermissionsWarning := false
  , dirPermissionsWarningShown := false
  , unreadableDirsWindowOpen := false
  , history := []
  , busy := false
  , treeUrl := ""
  , currentBranch := none
  , currentItem := none
  , selectedItems := []
  , detailsVisible := true }

/-! ## The event machine

User commands and engine notifications, dispatched to the handlers above.
This is the single-threaded event dispatch of section 5 of the spec: one
event runs to completion before the next is handled. -/

/-- An external stimulus: a user command or an engine notification.  The
tree payload of the completion events is the freshly built tree the
handlers resolve against. -/
inductive Ev where
  | evOpenUrl (url : String) (ok : Bool)
  | evRefreshAll
  | evRefreshSelected
  | evStartReading
  | evFinished (t : DirTreeData)
  | evAborted (t : DirTreeData)
  /-- the user closes the permissions `PanelMessage`; the `QPointer`
  `_dirPermissionsWarning` resets itself to null. -/
  | evClosePermissionsPanel
  | evAskOpenPkg (canceled : Bool) (pkgUrl : String)
  | evReadCache (name : String)
  | evTimerFired
  | evStopReading
  deriving DecidableEq, Repr

/-- Dispatch one event to its handler. -/
def step (s : MWState) : Ev → MWState × List Effect
  | Ev.evOpenUrl url ok => openUrl s url ok
  | Ev.evRefreshAll => refreshAll s
  | Ev.evRefreshSelected => refreshSelected s
  | Ev.evStartReading => startingReading s
  | Ev.evFinished t => readingFinished s t
  | Ev.evAborted t => readingAborted s t
  | Ev.evClosePermissionsPanel =>
      ({ s with dirPermissionsWarningShown := false }, [])
  | Ev.evAskOpenPkg canceled pkgUrl => askOpenPkg s canceled pkgUrl
  | Ev.evReadCache name => readCache s name
  | Ev.evTimerFired => treeExpandTimerFired s
  | Ev.evStopReading => stopReading s

/-- Run a sequence of events, concatenating the emitted effects. -/
def run (s : MWState) : List Ev → MWState × List Effect
  | [] => (s, [])
  | e :: es =>
    ((run (step s e).1 es).1, (step s e).2 ++ (run (step s e).1 es).2)

/-- How often the permissions warning panel was shown in a trace. -/
def countShows : List Effect → Nat
  | [] => 0
  | e :: es =>
    countShows es + (if e = Effect.showPermissionsPanel then 1 else 0)

/-- The events that arm the permissions warning: an explicit top-level
open or a refresh-all request. -/
def armsWarning : Ev → Bool
  | Ev.evOpenUrl _ _ => true
  | Ev.evRefreshAll => true
  | _ => false

/-- `a` occurs strictly before some occurrence of `b` in the trace. -/
def occursBefore (a b : Effect) : List Effect → Bool
  | [] => false
  | e :: es =>
    (decide (e = a) && es.any (fun x => decide (x = b))) || occursBefore a b es

/-- The selection effects prescribed by steps 1-3 of the spec's completion
algorithm, written from the spec's wording: (1) with a pending non-empty
target, resolve it and on success make the item the current branch,
additionally expanding a mount point; (2) else with no current branch,
expand to level 1; (3) else touch nothing. -/
def completionSelectionEffects (s : MWState) (t : DirTreeData) : List Effect :=
  if !futureSelIsEmpty s then
    match futureSelResolve s.futureSel s.useRootFallback t with
    | some fi =>
      Effect.setCurrentBranch fi.url ::
        (if fi.isMountPoint then [Effect.setExpanded fi.url] else [])
    | none => []
  else if s.currentBranch.isNone then
    [Effect.expandTreeToLevel 1]
  else
    []

/-- The arming flag mapped to `0`/`1`, the potential of the at-most-once
argument for the permissions warning. -/
def armedNat (s : MWState) : Nat :=
  if s.enableDirPermissionsWarning then 1 else 0

/-! ## Concrete fixtures for witnesses and counterexamples -/

/-- A plain readable directory node at tree level 1. -/
def sampleDir (u : String) : FileInfo :=
  { url := u
  , isDir := true
  , isPkgInfo := false
  , isPseudoDir := false
  , isExcluded := false
  , isMountPoint := false
  , treeLevel := 1
  , errSubDirCount := 0 }

def fiData : FileInfo := sampleDir ("/data")

def fiLogs : FileInfo := sampleDir ("/data/logs")

/-- A rebuilt tree from which `/data/logs` has vanished. -/
def treeNoLogs : DirTreeData := [fiData]

/-- A rebuilt tree still containing `/data/logs`. -/
def treeWithLogs : DirTreeData := [fiData, fiLogs]

/-- `/data` loaded, a refresh of `/data/logs` pending. -/
def stLogsPending : MWState :=
  { initialMWState with futureSel := some ("/data/logs"), treeUrl := "/data" }

/-- `/data` loaded, nothing pending, no current branch. -/
def stPlainOpen : MWState :=
  { initialMWState with treeUrl := "/data" }

/-- Some browsing history already recorded. -/
def stWithHistory : MWState :=
  { initialMWState with history := ["/old"] }

/-- A reachable state with a leftover pending settle-timer and a package
URL about to be scanned: cold-open `/data` (arming the timer), let the
scan finish quickly with no pending future selection (which leaves the
timer pending), then open a package through the package dialog. -/
def stAfterPkgDialog : MWState :=
  (run initialMWState
    [Ev.evOpenUrl ("/data") true, Ev.evStartReading, Ev.evFinished treeNoLogs,
     Ev.evAskOpenPkg false ("Pkg:games")]).1

/-! ## Helper lemmas -/

theorem showDirPermissionsWarning_fst_futureSel (s : MWState) :
    (showDirPermissionsWarning s).1.futureSel = s.futureSel := by
  unfold showDirPermissionsWarning; split <;> rfl

theorem showDirPermissionsWarning_fst_busy (s : MWState) :
    (showDirPermissionsWarning s).1.busy = s.busy := by
  unfold showDirPermissionsWarning; split <;> rfl

theorem showDirPermissionsWarning_fst_timer (s : MWState) :
    (showDirPermissionsWarning s).1.treeExpandTimerPending
      = s.treeExpandTimerPending := by
  unfold showDirPermissionsWarning; split <;> rfl

theorem applyFutureSelection_resolve_some (s : MWState) (t : DirTreeData)
    (fi : FileInfo)
    (h : futureSelResolve s.futureSel s.useRootFallback t = some fi) :
    applyFutureSelection s t =
      ({ s with treeExpandTimerPending := false
              , futureSel := none
              , currentBranch := some fi.url },
       Effect.setCurrentBranch fi.url ::
         (if fi.isMountPoint then [Effect.setExpanded fi.url] else [])) := by
  unfold applyFutureSelection; rw [h]

theorem applyFutureSelection_resolve_none (s : MWState) (t : DirTreeData)
    (h : futureSelResolve s.futureSel s.useRootFallback t = none) :
    applyFutureSelection s t = (s, []) := by
  unfold applyFutureSelection; rw [h]

theorem applyFutureSelection_fst_busy (s : MWState) (t : DirTreeData) :
    (applyFutureSelection s t).1.busy = s.busy := by
  unfold applyFutureSelection
  cases futureSelResolve s.futureSel s.useRootFallback t <;> rfl

theorem applyFutureSelection_fst_timer (s : MWState) (t : DirTreeData)
    (h : s.treeExpandTimerPending = false) :
    (applyFutureSelection s t).1.treeExpandTimerPending = false := by
  unfold applyFutureSelection
  cases futureSelResolve s.futureSel s.useRootFallback t <;> simp [h]

theorem applyFutureSelection_fst_enable (s : MWState) (t : DirTreeData) :
    (applyFutureSelection s t).1.enableDirPermissionsWarning
      = s.enableDirPermissionsWarning := by
  unfold applyFutureSelection
  cases futureSelResolve s.futureSel s.useRootFallback t <;> rfl

theorem idleDisplay_fst (s : MWState) (t : DirTreeData) :
    (idleDisplay s t).1 =
      (idleDisplayBranch { s with updateTimerRunning := false } t).1 := rfl

theorem idleDisplayBranch_pending (s : MWState) (t : DirTreeData)
    (h : futureSelIsEmpty s = false) :
    idleDisplayBranch s t =
      applyFutureSelection { s with treeExpandTimerPending := false } t := by
  unfold idleDisplayBranch
  simp [h]

theorem idleDisplayBranch_fst_busy (s : MWState) (t : DirTreeData) :
    (idleDisplayBranch s t).1.busy = s.busy := by
  unfold idleDisplayBranch
  split
  · rw [applyFutureSelection_fst_busy]
  · split <;> rfl

theorem idleDisplayBranch_fst_timer_pending (s : MWState) (t : DirTreeData)
    (h : futureSelIsEmpty s = false) :
    (idleDisplayBranch s t).1.treeExpandTimerPending = false := by
  rw [idleDisplayBranch_pending s t h]
  exact applyFutureSelection_fst_timer _ t rfl

theorem idleDisplayBranch_fst_enable (s : MWState) (t : DirTreeData) :
    (idleDisplayBranch s t).1.enableDirPermissionsWarning
      = s.enableDirPermissionsWarning := by
  unfold idleDisplayBranch
  split
  · exact applyFutureSelection_fst_enable _ t
  · split <;> rfl

theorem idleDisplayBranch_snd_spec (s : MWState) (t : DirTreeData) :
    (idleDisplayBranch s t).2 = completionSelectionEffects s t := by
  unfold idleDisplayBranch completionSelectionEffects
  cases h : futureSelIsEmpty s with
  | false =>
    simp only [h, Bool.not_false, if_pos]
    cases hres : futureSelResolve s.futureSel s.useRootFallback t with
    | some fi =>
      rw [applyFutureSelection_resolve_some _ t fi (by exact hres)]
    | none =>
      rw [applyFutureSelection_resolve_none _ t (by exact hres)]
  | true =>
    simp only [h, Bool.not_true]
    split <;> split <;> simp_all

theorem busyDisplay_fst_futureSel (s : MWState) :
    (busyDisplay s).1.futureSel = s.futureSel := by
  unfold busyDisplay
  cases hp : isPkgUrl s.treeUrl <;> cases hb : s.currentBranch <;> simp_all

theorem busyDisplay_fst_enable (s : MWState) :
    (busyDisplay s).1.enableDirPermissionsWarning
      = s.enableDirPermissionsWarning := by
  unfold busyDisplay
  cases hp : isPkgUrl s.treeUrl <;> cases hb : s.currentBranch <;> simp_all

theorem readingFinished_fst_busy (s : MWState) (t : DirTreeData) :
    (readingFinished s t).1.busy = false := by
  unfold readingFinished
  split
  · rw [showDirPermissionsWarning_fst_busy, idleDisplay_fst,
        idleDisplayBranch_fst_busy]
  · rw [idleDisplay_fst, idleDisplayBranch_fst_busy]

theorem readingAborted_fst_busy (s : MWState) (t : DirTreeData) :
    (readingAborted s t).1.busy = false := by
  unfold readingAborted
  rw [idleDisplay_fst, idleDisplayBranch_fst_busy]

theorem readingFinished_fst_timer_pending (s : MWState) (t : DirTreeData)
    (h : futureSelIsEmpty s = false) :
    (readingFinished s t).1.treeExpandTimerPending = false := by
  unfold readingFinished
  split
  · rw [showDirPermissionsWarning_fst_timer, idleDisplay_fst]
    exact idleDisplayBranch_fst_timer_pending _ t h
  · rw [idleDisplay_fst]
    exact idleDisplayBranch_fst_timer_pending _ t h

theorem readingAborted_fst_timer_pending (s : MWState) (t : DirTreeData)
    (h : futureSelIsEmpty s = false) :
    (readingAborted s t).1.treeExpandTimerPending = false := by
  unfold readingAborted
  rw [idleDisplay_fst]
  exact idleDisplayBranch_fst_timer_pending _ t h

theorem countShows_append (a b : List Effect) :
    countShows (a ++ b) = countShows a + countShows b := by
  induction a with
  | nil => simp [countShows]
  | cons e es ih => simp [countShows, ih]; omega

theorem applyFutureSelection_no_panel (s : MWState) (t : DirTreeData) :
    countShows (applyFutureSelection s t).2 = 0 := by
  cases hres : futureSelResolve s.futureSel s.useRootFallback t with
  | some fi =>
    rw [applyFutureSelection_resolve_some _ t fi hres]
    cases fi.isMountPoint <;> simp [countShows]
  | none =>
    rw [applyFutureSelection_resolve_none _ t hres]
    rfl

theorem idleDisplayBranch_no_panel (s : MWState) (t : DirTreeData) :
    countShows (idleDisplayBranch s t).2 = 0 := by
  unfold idleDisplayBranch
  split
  · exact applyFutureSelection_no_panel _ t
  · split <;> simp [countShows]

theorem updateFileDetailsView_no_panel (s : MWState) :
    countShows (updateFileDetailsView s) = 0 := by
  unfold updateFileDetailsView
  split_ifs <;> simp [countShows]

theorem idleDisplay_fst_enable (s : MWState) (t : DirTreeData) :
    (idleDisplay s t).1.enableDirPermissionsWarning
      = s.enableDirPermissionsWarning := by
  rw [idleDisplay_fst]
  exact idleDisplayBranch_fst_enable _ t

theorem idleDisplay_no_panel (s : MWState) (t : DirTreeData) :
    countShows (idleDisplay s t).2 = 0 := by
  show countShows (Effect.updateActions :: Effect.sortByColumn ("PercentNum") false ::
    ((idleDisplayBranch { s with updateTimerRunning := false } t).2
      ++ updateFileDetailsView (idleDisplayBranch { s with updateTimerRunning := false } t).1
      ++ [Effect.showTreemapView])) = 0
  simp [countShows, countShows_append, idleDisplayBranch_no_panel,
        updateFileDetailsView_no_panel]

theorem showDirPermissionsWarning_invariant (s : MWState) :
    countShows (showDirPermissionsWarning s).2
      + armedNat (showDirPermissionsWarning s).1 ≤ armedNat s := by
  unfold showDirPermissionsWarning armedNat
  split_ifs <;> simp_all [countShows]

theorem busyDisplay_no_panel (s : MWState) :
    countShows (busyDisplay s).2 = 0 := by
  unfold busyDisplay
  cases hw : s.unreadableDirsWindowOpen <;> cases hp : isPkgUrl s.treeUrl <;>
    cases hb : s.currentBranch <;> simp_all [countShows]

theorem step_warning_invariant (s : MWState) (e : Ev)
    (h : armsWarning e = false) :
    countShows (step s e).2 + armedNat (step s e).1 ≤ armedNat s := by
  cases e with
  | evOpenUrl url ok => simp [armsWarning] at h
  | evRefreshAll => simp [armsWarning] at h
  | evRefreshSelected =>
    show countShows (refreshSelected s).2 + armedNat (refreshSelected s).1
      ≤ armedNat s
    unfold refreshSelected
    simp [countShows_append, busyDisplay_no_panel, countShows, armedNat,
          busyDisplay_fst_enable]
  | evStartReading =>
    show countShows (busyDisplay _).2 + armedNat (busyDisplay _).1 ≤ _
    simp [busyDisplay_no_panel, armedNat, busyDisplay_fst_enable]
  | evFinished t =>
    show countShows (readingFinished s t).2 + armedNat (readingFinished s t).1
      ≤ armedNat s
    unfold readingFinished
    split
    · have h2 := showDirPermissionsWarning_invariant
        (idleDisplay { s with busy := false } t).1
      have h3 : countShows (idleDisplay { s with busy := false } t).2 = 0 :=
        idleDisplay_no_panel _ t
      have h4 : armedNat (idleDisplay { s with busy := false } t).1
          = armedNat s := by
        simp [armedNat, idleDisplay_fst_enable]
      rw [countShows_append, countShows_append, h3]
      simp [countShows]
      omega
    · have h3 : countShows (idleDisplay { s with busy := false } t).2 = 0 :=
        idleDisplay_no_panel _ t
      have h4 : armedNat (idleDisplay { s with busy := false } t).1
          = armedNat s := by
        simp [armedNat, idleDisplay_fst_enable]
      rw [countShows_append, h3]
      simp [countShows]
      omega
  | evAborted t =>
    show countShows (readingAborted s t).2 + armedNat (readingAborted s t).1
      ≤ armedNat s
    unfold readingAborted
    have h3 : countShows (idleDisplay { s with busy := false } t).2 = 0 :=
      idleDisplay_no_panel _ t
    have h4 : armedNat (idleDisplay { s with busy := false } t).1
        = armedNat s := by
      simp [armedNat, idleDisplay_fst_enable]
    rw [countShows_append, h3]
    simp [countShows]
    omega
  | evClosePermissionsPanel => simp [step, countShows, armedNat]
  | evAskOpenPkg canceled pkgUrl =>
    show countShows (askOpenPkg s canceled pkgUrl).2
        + armedNat (askOpenPkg s canceled pkgUrl).1 ≤ _
    unfold askOpenPkg readPkg
    split <;> simp [countShows, armedNat]
  | evReadCache name =>
    show countShows (readCache s name).2 + armedNat (readCache s name).1 ≤ _
    unfold readCache
    split <;> simp [countShows, armedNat]
  | evTimerFired => simp [step, treeExpandTimerFired, countShows, armedNat]
  | evStopReading =>
    show countShows (stopReading s).2 + armedNat (stopReading s).1 ≤ _
    unfold stopReading
    split <;> simp [countShows, armedNat]

theorem run_warning_invariant (evs : List Ev) : ∀ s : MWState,
    (∀ e ∈ evs, armsWarning e = false) →
    countShows (run s evs).2 + armedNat (run s evs).1 ≤ armedNat s := by
  induction evs with
  | nil => intro s _; simp [run, countShows]
  | cons e es ih =>
    intro s h
    have h1 := step_warning_invariant s e (h e (by simp))
    have h2 := ih (step s e).1 (fun x hx => h x (by simp [hx]))
    show countShows ((step s e).2 ++ (run (step s e).1 es).2)
        + armedNat (run (step s e).1 es).1 ≤ armedNat s
    rw [countShows_append]
    omega

/-! ## Claim C1 -/

/-- C1, counterexample: with a pending future selection whose target has
vanished from the rebuilt tree, a scan completion does NOT leave the
FutureSelection empty — `applyFutureSelection` only clears it when
resolution succeeds, so the claim "isEmpty() is true regardless of whether
resolving succeeded or failed" is false at this input. -/
theorem c1_claim_counterexample :
    futureSelIsEmpty stLogsPending = false ∧
    futureSelIsEmpty (readingFinished stLogsPending treeNoLogs).1 = false := by
  decide

/-- C1, amended: after every scan completion — finished or aborted — that
runs while a FutureSelection with a non-empty target is pending, the
FutureSelection is empty if and only if resolving the target against the
rebuilt tree succeeded; on a failed resolution it stays pending. -/
theorem c1_futureSelection_cleared_iff_resolution_succeeds
    (s : MWState) (t : DirTreeData)
    (hpend : futureSelIsEmpty s = false) :
    (futureSelIsEmpty (readingFinished s t).1
      = (futureSelResolve s.futureSel s.useRootFallback t).isSome) ∧
    (futureSelIsEmpty (readingAborted s t).1
      = (futureSelResolve s.futureSel s.useRootFallback t).isSome) := by
  have key : ∀ s1 : MWState, s1.futureSel = s.futureSel →
      s1.useRootFallback = s.useRootFallback →
      futureSelIsEmpty (idleDisplayBranch s1 t).1
        = (futureSelResolve s.futureSel s.useRootFallback t).isSome := by
    intro s1 hf hu
    rw [idleDisplayBranch_pending s1 t
      (by simp [futureSelIsEmpty, hf]; simp [futureSelIsEmpty] at hpend; exact hpend)]
    cases hres : futureSelResolve s.futureSel s.useRootFallback t with
    | some fi =>
      rw [applyFutureSelection_resolve_some _ t fi (by simp only [hf, hu]; exact hres)]
      rfl
    | none =>
      rw [applyFutureSelection_resolve_none _ t (by simp only [hf, hu]; exact hres)]
      simp only [futureSelIsEmpty] at hpend ⊢
      simp [hf, hpend]
  constructor
  · unfold readingFinished
    split
    · unfold futureSelIsEmpty
      rw [showDirPermissionsWarning_fst_futureSel]
      exact key _ rfl rfl
    · exact key _ rfl rfl
  · unfold readingAborted
    exact key _ rfl rfl

/-- C1, witness: the amended theorem applied at a pending selection whose
target is still present in the rebuilt tree, for both completion kinds. -/
theorem c1_futureSelection_cleared_witness :
    (futureSelIsEmpty (readingFinished stLogsPending treeWithLogs).1
      = (futureSelResolve stLogsPending.futureSel stLogsPending.useRootFallback
          treeWithLogs).isSome) ∧
    (futureSelIsEmpty (readingAborted stLogsPending treeWithLogs).1
      = (futureSelResolve stLogsPending.futureSel stLogsPending.useRootFallback
          treeWithLogs).isSome) :=
  c1_futureSelection_cleared_iff_resolution_succeeds stLogsPending treeWithLogs
    (by decide)

/-! ## Claim C2 -/

/-- C2, counterexample: the command-enablement refresh (step 4 of the
claimed order) is the FIRST thing `idleDisplay` does — it occurs at the
head of the completion trace, strictly before the future selection is made
the current branch, so the claimed execution order (1) … (4) is false at
this input. -/
theorem c2_claim_counterexample :
    (idleDisplay stLogsPending treeWithLogs).2.head? = some Effect.updateActions ∧
    occursBefore Effect.updateActions (Effect.setCurrentBranch ("/data/logs"))
      (idleDisplay stLogsPending treeWithLogs).2 = true := by
  decide

/-- C2, amended: on every scan completion the controller first refreshes
command enablement and re-sorts, THEN runs the three-way selection branch
(steps 1-3 exactly as claimed: consume a pending future selection — making
the resolved item the current branch and expanding it when it is a mount
point — else expand to level 1 when no current branch is set, else touch
nothing), then repopulates the details view when it is visible and
refreshes the treemap; and when a future selection was pending the
settle-timer is no longer pending afterwards. -/
theorem c2_completion_trace (s : MWState) (t : DirTreeData) :
    ((idleDisplay s t).2 =
      Effect.updateActions :: Effect.sortByColumn ("PercentNum") false ::
        (completionSelectionEffects s t
          ++ updateFileDetailsView (idleDisplay s t).1
          ++ [Effect.showTreemapView])) ∧
    (futureSelIsEmpty s = false →
      (idleDisplay s t).1.treeExpandTimerPending = false) := by
  constructor
  · show Effect.updateActions :: Effect.sortByColumn ("PercentNum") false ::
        ((idleDisplayBranch { s with updateTimerRunning := false } t).2
          ++ updateFileDetailsView
              (idleDisplayBranch { s with updateTimerRunning := false } t).1
          ++ [Effect.showTreemapView]) = _
    rw [idleDisplayBranch_snd_spec]
    rfl
  · intro hpend
    rw [idleDisplay_fst]
    exact idleDisplayBranch_fst_timer_pending _ t hpend

/-- C2, witness: the settle-timer conjunct of the amended theorem applied
at a pending future selection. -/
theorem c2_completion_trace_witness :
    (idleDisplay stLogsPending treeWithLogs).1.treeExpandTimerPending = false :=
  (c2_completion_trace stLogsPending treeWithLogs).2 (by decide)

/-! ## Claim C3 -/

/-- C3, counterexample: open `/data` cold (no current branch, so the
settle-timer is armed), let the scan finish quickly with NO pending future
selection — `idleDisplay` then takes the expand-to-level-1 branch without
stopping the settle-timer, so the timer is still pending when the
completion handler returns, falsifying the claim at this input. -/
theorem c3_claim_counterexample :
    ¬ ((readingFinished (startingReading stPlainOpen).1 treeNoLogs).1.treeExpandTimerPending
        = false) := by
  decide

/-- C3, amended: for every beginSession followed by a completion the
session always ends idle, and the settle-timer is guaranteed to no longer
be pending only when a future selection with a non-empty target was
pending at completion; with an empty future selection it can stay armed. -/
theorem c3_session_ends_idle (s : MWState) (t : DirTreeData) :
    ((readingFinished (startingReading s).1 t).1.busy = false ∧
     (readingAborted (startingReading s).1 t).1.busy = false) ∧
    (futureSelIsEmpty s = false →
      (readingFinished (startingReading s).1 t).1.treeExpandTimerPending = false ∧
      (readingAborted (startingReading s).1 t).1.treeExpandTimerPending = false) := by
  refine ⟨⟨readingFinished_fst_busy _ t, readingAborted_fst_busy _ t⟩, ?_⟩
  intro hpend
  have hpend1 : futureSelIsEmpty (startingReading s).1 = false := by
    unfold startingReading
    unfold futureSelIsEmpty at hpend ⊢
    rw [busyDisplay_fst_futureSel]
    exact hpend
  exact ⟨readingFinished_fst_timer_pending _ t hpend1,
         readingAborted_fst_timer_pending _ t hpend1⟩

/-- C3, witness: the amended theorem's settle-timer conjunct applied at a
pending future selection. -/
theorem c3_session_ends_idle_witness :
    (readingFinished (startingReading stLogsPending).1 treeNoLogs).1.treeExpandTimerPending
      = false :=
  ((c3_session_ends_idle stLogsPending treeNoLogs).2 (by decide)).1

/-! ## Claim C4 -/

/-- C4, counterexample: an open-package request through the package dialog
(`askOpenPkg`, not canceled) starts a brand-new top-level package scan but
does NOT clear the browsing history, falsifying the claim at this input;
the second conjunct shows that the scan really was requested. -/
theorem c4_claim_counterexample :
    ¬ ((askOpenPkg stWithHistory false ("Pkg:games")).1.history = []) ∧
    (askOpenPkg stWithHistory false ("Pkg:games")).2 =
      [Effect.resetTree, Effect.updateWindowTitle ("Pkg:games"),
       Effect.expandTreeToLevel 0, Effect.modelReadPkg ("Pkg:games")] := by
  decide

/-- C4, amended: the browsing history is cleared on every `openUrl`
(directory, unpkg, or pkg-URL open) and on every cache load, but the
open-package path through the package dialog (`askOpenPkg` → `readPkg`)
leaves the history untouched. -/
theorem c4_history_clearing :
    (∀ (s : MWState) (url : String) (ok : Bool),
      (openUrl s url ok).1.history = []) ∧
    (∀ (s : MWState) (name : String), (readCache s name).1.history = []) ∧
    (∀ (s : MWState) (canceled : Bool) (pkgUrl : String),
      (askOpenPkg s canceled pkgUrl).1.history = s.history) := by
  refine ⟨?_, ?_, ?_⟩
  · intro s url ok
    unfold openUrl
    split
    · rfl
    · split
      · unfold showUnpkgFiles
        split <;> rfl
      · unfold openDir
        split <;> rfl
  · intro s name
    unfold readCache
    split <;> rfl
  · intro s canceled pkgUrl
    unfold askOpenPkg
    split <;> rfl

/-! ## Claim C5 -/

/-- C5: the permissions-warning arming flag is edge-triggered.  Over any
event sequence containing no explicit top-level open and no refresh-all
request, the warning panel is shown at most once; showing the panel clears
the arming flag; and no non-arming event ever raises the flag. -/
theorem c5_warning_at_most_once :
    (∀ (s : MWState) (evs : List Ev),
      (∀ e ∈ evs, armsWarning e = false) → countShows (run s evs).2 ≤ 1) ∧
    (∀ s : MWState, (showDirPermissionsWarning s).2 ≠ [] →
      (showDirPermissionsWarning s).1.enableDirPermissionsWarning = false) ∧
    (∀ (s : MWState) (e : Ev), armsWarning e = false →
      s.enableDirPermissionsWarning = false →
      (step s e).1.enableDirPermissionsWarning = false) := by
  refine ⟨?_, ?_, ?_⟩
  · intro s evs h
    have h1 := run_warning_invariant evs s h
    have h2 : armedNat s ≤ 1 := by unfold armedNat; split <;> omega
    omega
  · intro s hne
    cases h1 : s.dirPermissionsWarningShown <;>
      cases h2 : s.enableDirPermissionsWarning <;>
      simp_all [showDirPermissionsWarning]
  · intro s e he hs
    have h1 := step_warning_invariant s e he
    have h2 : armedNat s = 0 := by unfold armedNat; rw [hs]; rfl
    by_contra hc
    have h3 : (step s e).1.enableDirPermissionsWarning = true := by
      cases hval : (step s e).1.enableDirPermissionsWarning
      · exact absurd hval hc
      · rfl
    have h4 : armedNat (step s e).1 = 1 := by unfold armedNat; rw [h3]; rfl
    omega

/-- C5, witness: the at-most-once conjunct applied to a concrete sequence
of non-arming events. -/
theorem c5_warning_at_most_once_witness :
    countShows (run stPlainOpen
      [Ev.evStartReading, Ev.evFinished treeNoLogs, Ev.evRefreshSelected,
       Ev.evAborted treeNoLogs]).2 ≤ 1 :=
  c5_warning_at_most_once.1 stPlainOpen _ (by decide)

/-! ## Claim C6 -/

/-- C6: the constructor configures `useRootFallback = false`, and when the
pending target cannot be located in the rebuilt tree, the completion
algorithm makes no selection at all: the current branch is untouched and
no `setCurrentBranch` call of any item appears in the trace. -/
theorem c6_no_root_fallback (s : MWState) (t : DirTreeData) (u : String)
    (hfb : s.useRootFallback = false)
    (hfut : s.futureSel = some u)
    (hmiss : locate t u = none) :
    initialMWState.useRootFallback = false ∧
    (idleDisplay s t).1.currentBranch = s.currentBranch ∧
    ∀ url, Effect.setCurrentBranch url ∉ (idleDisplay s t).2 := by
  have hres : futureSelResolve s.futureSel s.useRootFallback t = none := by
    rw [hfut, hfb]
    unfold futureSelResolve
    simp [hmiss]
  have hpend : futureSelIsEmpty s = false := by simp [futureSelIsEmpty, hfut]
  have hbr : idleDisplayBranch { s with updateTimerRunning := false } t
      = ({ s with updateTimerRunning := false, treeExpandTimerPending := false },
         []) := by
    rw [idleDisplayBranch_pending _ t (by exact hpend)]
    exact applyFutureSelection_resolve_none _ t (by exact hres)
  refine ⟨rfl, ?_, ?_⟩
  · rw [idleDisplay_fst, hbr]
  · intro url
    show Effect.setCurrentBranch url ∉
      Effect.updateActions :: Effect.sortByColumn ("PercentNum") false ::
        ((idleDisplayBranch { s with updateTimerRunning := false } t).2
          ++ updateFileDetailsView
              (idleDisplayBranch { s with updateTimerRunning := false } t).1
          ++ [Effect.showTreemapView])
    rw [hbr]
    unfold updateFileDetailsView
    split <;> [split <;> [skip; split] ; skip] <;> simp

/-- C6, witness: the theorem applied at a concrete pending selection whose
target has vanished from the rebuilt tree. -/
theorem c6_no_root_fallback_witness :
    (idleDisplay stLogsPending treeNoLogs).1.currentBranch
      = stLogsPending.currentBranch :=
  (c6_no_root_fallback stLogsPending treeNoLogs ("/data/logs")
    rfl rfl (by decide)).2.1

/-! ## Claim C7 -/

/-- C7, counterexample: the claimed "armed iff" fails at a reachable
session start.  After a cold open of `/data` whose scan finishes quickly
with no pending future selection, the settle-timer survives the
completion (it is never canceled on that path); opening a package through
the package dialog then begins a session whose root IS a package-filter
URL — the claimed condition is false — yet the settle-timer is still
pending when the busy transition completes. -/
theorem c7_claim_counterexample :
    ((startingReading stAfterPkgDialog).1.treeExpandTimerPending = true) ∧
    ((!isPkgUrl stAfterPkgDialog.treeUrl
        && stAfterPkgDialog.currentBranch.isNone) = false) := by
  decide

/-- C7, amended: at session start `busyDisplay` ARMS the settle-timer if
and only if the root being opened is not a package-filter URL and no
current branch is set, but it never disarms a leftover pending timer: the
timer is pending after the busy transition iff it was already pending
beforehand or that arming condition holds.  The sole effect of the timer
firing is an expand-to-level-1 request. -/
theorem c7_settle_timer_armed_iff (s : MWState) :
    ((startingReading s).1.treeExpandTimerPending
        = (s.treeExpandTimerPending
            || (!isPkgUrl s.treeUrl && s.currentBranch.isNone))) ∧
    ∀ s2, (treeExpandTimerFired s2).2 = [Effect.expandTreeToLevel 1] := by
  constructor
  · unfold startingReading busyDisplay
    cases hps : isPkgUrl s.treeUrl <;> cases hbs : s.currentBranch <;> simp_all
  · intro s2
    rfl

/-! ## Claim C8 -/

/-- C8: move-to-trash is enabled iff at least one item is selected, no
selected item is a pseudo directory or package entry, and no scan is in
progress. -/
theorem c8_move_to_trash (reading : Bool) (cur top : Option FileInfo)
    (sel : List FileInfo) :
    (updateActions reading cur top sel).moveToTrash = true ↔
      (sel ≠ [] ∧ (∀ f ∈ sel, f.isPseudoDir = false ∧ f.isPkgInfo = false) ∧
       reading = false) := by
  cases sel with
  | nil => simp [updateActions, containsPseudoDir, containsPkg]
  | cons a l =>
    simp [updateActions, containsPseudoDir, containsPkg, firstAttr]
    intro _
    constructor
    · rintro ⟨⟨hap, hlp⟩, hak, hlk⟩
      exact ⟨⟨hap, hak⟩, fun f hf => ⟨hlp f hf, hlk f hf⟩⟩
    · rintro ⟨⟨hap, hak⟩, hl⟩
      exact ⟨⟨hap, fun f hf => (hl f hf).1⟩, hak, fun f hf => (hl f hf).2⟩

/-- C8, witness: with one plain directory selected and no scan running,
the characterization yields an enabled move-to-trash. -/
theorem c8_move_to_trash_witness :
    (updateActions false none none [fiData]).moveToTrash = true :=
  (c8_move_to_trash false none none [fiData]).mpr (by decide)

/-! ## Claim C9 -/

/-- C9: a stop request while no scan is busy is a complete no-op — the
state is unchanged and no effect (in particular no abort request to the
engine) is emitted. -/
theorem c9_stop_reading_noop (s : MWState) (h : s.busy = false) :
    stopReading s = (s, ([] : List Effect)) := by
  simp [stopReading, h]

/-- C9, witness: the theorem applied at the initial (idle) state. -/
theorem c9_stop_reading_noop_witness :
    stopReading initialMWState = (initialMWState, ([] : List Effect)) :=
  c9_stop_reading_noop initialMWState rfl

/-! ## Claim C10 -/

/-- C10: refresh-selected enablement is independent of the scan-busy flag
and holds exactly when one item is selected that is neither excluded nor a
mount point and the loaded root is not a package view, while refresh-all,
read-cache and write-cache are enabled exactly when no scan is running. -/
theorem c10_refresh_selected_enablement (reading : Bool)
    (cur top : Option FileInfo) (sel : List FileInfo) :
    ((updateActions reading cur top sel).refreshSelected
        = (updateActions false cur top sel).refreshSelected) ∧
    ((updateActions reading cur top sel).refreshSelected = true ↔
      (sel.length = 1 ∧
       (∀ f ∈ sel, f.isExcluded = false ∧ f.isMountPoint = false) ∧
       firstAttr top (fun f => f.isPkgInfo) = false)) ∧
    ((updateActions reading cur top sel).refreshAll = !reading) ∧
    ((updateActions reading cur top sel).askReadCache = !reading) ∧
    ((updateActions reading cur top sel).askWriteCache = !reading) := by
  refine ⟨rfl, ?_, rfl, rfl, rfl⟩
  rcases sel with _ | ⟨a, _ | ⟨b, l⟩⟩
  · simp [updateActions, firstAttr]
  · simp [updateActions, firstAttr]
  · simp [updateActions, firstAttr]

/-- C10, witness: refresh-selected is enabled for a single plain selected
directory even while a scan is running. -/
theorem c10_refresh_selected_enablement_witness :
    (updateActions true none none [fiData]).refreshSelected = true :=
  ((c10_refresh_selected_enablement true none none [fiData]).2.1).mpr (by decide)

end QDirStat
